import Mathlib

/-!
Shallow embedding of `src/main.py` — the "xgodo-proxy" FastAPI service.

The service proxies three upstream operations (apply, submit, details) and
keeps a local SQLite table `submissions` of every submit, keyed per user.
We model:
  * JSON values (`JVal`) as exchanged with upstream;
  * Python `str.strip` (`pyStrip`);
  * `_extract_task_id` (`extract_task_id`);
  * the SQLite table (`DB`, `Row`) with `_db_insert_submission_sync`
    (`db_insert_submission`) and `_db_list_submissions_sync`
    (`db_list_submissions`, `ORDER BY id DESC` modelled with `mergeSort`);
  * `_require_token` / `_xgodo_get` / `_xgodo_post` as `xgodo_result`
    (the value or `HTTPException` produced) together with `xgodo_calls`
    (which outbound requests are actually issued — header construction
    runs before the request, so a missing token means no request);
  * the endpoint handlers `apply_task`, `submit_task`, `task_details`,
    `user_submissions` and `user_tasks_details`.
Exceptions (`HTTPException`) become `Except ProxyErr`, with the three
distinct failure shapes the code produces kept apart by constructor.
-/

/-- JSON values, as decoded by `res.json()` in `main.py`. -/
inductive JVal where
  | jnull : JVal
  | jbool : Bool → JVal
  | jint : Int → JVal
  | jstr : String → JVal
  | jarr : List JVal → JVal
  | jobj : List (String × JVal) → JVal
deriving Repr, Inhabited

/-- Python `dict.get k`: the value at the first binding of `k`, else `None`. -/
def jget (fields : List (String × JVal)) (k : String) : Option JVal :=
  (fields.find? (fun p => p.1 == k)).map Prod.snd

/-- Python `str.strip()`: drop whitespace from both ends. -/
def pyStrip (s : String) : String :=
  ⟨((s.data.dropWhile Char.isWhitespace).reverse.dropWhile Char.isWhitespace).reverse⟩

/-- Python `str(v)` for a value passing `isinstance(v, (str, int))`
(`bool` is an `int` subclass in Python, hence the `jbool` case). -/
def strOfStrOrInt : JVal → Option String
  | JVal.jstr s => some s
  | JVal.jint n => some (toString n)
  | JVal.jbool b => some (if b then "True" else "False")
  | _ => none

/-- The top-level key names `_extract_task_id` scans, in order. -/
def idKeys : List String := ["task_id", "taskId", "id", "taskID"]

/-- The nested container key names `_extract_task_id` scans, in order. -/
def containerKeys : List String := ["task", "data", "result"]

/-- One scan of `for k in (...): v = payload.get(k); if isinstance(v, (str, int))
and str(v).strip(): return str(v).strip()` over a dict. -/
def scanIdKeys (o : List (String × JVal)) : List String → Option String
  | [] => none
  | k :: ks =>
    match (jget o k).bind strOfStrOrInt with
    | some s => if pyStrip s ≠ "" then some (pyStrip s) else scanIdKeys o ks
    | none => scanIdKeys o ks

/-- The nested pass of `_extract_task_id`: for each container key whose value
is a dict, scan the id keys inside it. -/
def scanContainers (o : List (String × JVal)) : List String → Option String
  | [] => none
  | k :: ks =>
    match jget o k with
    | some (JVal.jobj inner) =>
      match scanIdKeys inner idKeys with
      | some s => some s
      | none => scanContainers o ks
    | _ => scanContainers o ks

/-- `_extract_task_id(payload)` from `main.py`: `None` for null; `str(payload)`
for a bare string/int (no strip, no emptiness check); for a dict, the
top-level id keys first, then the nested container keys; otherwise `None`. -/
def extract_task_id : JVal → Option String
  | JVal.jnull => none
  | JVal.jstr s => some s
  | JVal.jint n => some (toString n)
  | JVal.jbool b => some (if b then "True" else "False")
  | JVal.jobj o =>
    match scanIdKeys o idKeys with
    | some s => some s
    | none => scanContainers o containerKeys
  | JVal.jarr _ => none

example : extract_task_id (JVal.jobj [("task_id", JVal.jstr "T1")]) = some "T1" := by decide
example : extract_task_id (JVal.jobj [("data", JVal.jobj [("id", JVal.jstr "T1")])]) = some "T1" := by decide
example : extract_task_id (JVal.jobj [("result", JVal.jobj [("taskId", JVal.jstr "T1")])]) = some "T1" := by decide
example : extract_task_id (JVal.jobj [("foo", JVal.jstr "bar")]) = none := by decide

/-- One row of the `submissions` table (`_db_init_sync`): `id INTEGER PRIMARY
KEY AUTOINCREMENT`, `task_id TEXT NULL` and no UNIQUE constraint on it. -/
structure Row where
  id : Nat
  user_id : String
  job_id : String
  job_proof : String
  task_id : Option String
  upstream : JVal
  created_at : String
deriving Repr, Inhabited

/-- The `submissions` table plus SQLite's AUTOINCREMENT counter. -/
structure DB where
  nextId : Nat
  rows : List Row
deriving Repr, Inhabited

/-- The freshly created database (`_db_init_sync`): AUTOINCREMENT starts
row ids at 1. -/
def DB.empty : DB := { nextId := 1, rows := [] }

/-- `_db_insert_submission_sync`: a plain `INSERT INTO submissions ...`
returning `cur.lastrowid`. Every call appends one row with a fresh id;
there is no uniqueness check on `task_id`. -/
def db_insert_submission (db : DB) (user_id job_id job_proof : String)
    (task_id : Option String) (upstream : JVal) (created_at : String) :
    Nat × DB :=
  let r : Row :=
    { id := db.nextId, user_id := user_id, job_id := job_id,
      job_proof := job_proof, task_id := task_id, upstream := upstream,
      created_at := created_at }
  (db.nextId, { nextId := db.nextId + 1, rows := db.rows ++ [r] })

/-- `_db_list_submissions_sync`: `SELECT ... WHERE user_id = ? ORDER BY id
DESC`. -/
def db_list_submissions (db : DB) (u : String) : List Row :=
  (db.rows.filter (fun r => r.user_id == u)).mergeSort (fun a b => b.id ≤ a.id)

/-- Well-formedness the SQLite engine maintains for `submissions`: rows are
stored with strictly increasing AUTOINCREMENT ids, all below the counter. -/
def DB.WF (db : DB) : Prop :=
  db.rows.Pairwise (fun a b => a.id < b.id) ∧ ∀ r ∈ db.rows, r.id < db.nextId

/-- Configuration read at module load: `XGODO_TOKEN = os.getenv(...).strip()`.
An absent variable leaves the empty string. -/
structure Config where
  token : String
deriving Repr, Inhabited

/-- What one upstream HTTP exchange can come to, as seen by `_xgodo_get` and
`_xgodo_post` after the `httpx` call. -/
inductive UpResult where
  | ok : JVal → UpResult
  | noContent : UpResult
  | errorStatus : Nat → JVal → UpResult
  | unreachable : String → UpResult
deriving Repr, Inhabited

/-- The distinct `HTTPException` shapes `main.py` raises: the fixed
500 misconfiguration from `_require_token`, the 502 transport failure, and
a forwarded upstream error status with its decoded body. -/
inductive ProxyErr where
  | config : String → ProxyErr
  | unreachable : String → ProxyErr
  | upstream : Nat → JVal → ProxyErr
deriving Repr, Inhabited

/-- The detail string `_require_token` raises when `XGODO_TOKEN` is empty. -/
def tokenMissingDetail : String :=
  "Server misconfigured: XGODO_TOKEN is not set. Add it as an environment variable in Railway."

/-- The body `_xgodo_get`/`_xgodo_post` return for a 204 upstream response. -/
def noContentBody : JVal :=
  JVal.jobj [("ok", JVal.jbool true), ("status_code", JVal.jint 204)]

/-- `_xgodo_get` / `_xgodo_post` (identical control flow): build the auth
headers (raising the configuration error when the token is empty, before any
request goes out), then map the exchange to a value or an `HTTPException`. -/
def xgodo_result (cfg : Config) (r : UpResult) : Except ProxyErr JVal :=
  if cfg.token = "" then Except.error (ProxyErr.config tokenMissingDetail)
  else
    match r with
    | UpResult.ok d => Except.ok d
    | UpResult.noContent => Except.ok noContentBody
    | UpResult.errorStatus c b => Except.error (ProxyErr.upstream c b)
    | UpResult.unreachable m =>
        Except.error (ProxyErr.unreachable ("Upstream request failed: " ++ m))

/-- The outbound requests one `_xgodo_get`/`_xgodo_post` call issues, tagged
by the id in its query parameters: none when `_auth_headers()` raises first,
one otherwise. -/
def xgodo_calls (cfg : Config) (tag : String) : List String :=
  if cfg.token = "" then [] else [tag]

/-- `GET /apply`: one upstream GET, response wrapped as
`{"ok": true, "apply": data}`. -/
def apply_task (cfg : Config) (r : UpResult) : Except ProxyErr JVal :=
  match xgodo_result cfg r with
  | Except.error e => Except.error e
  | Except.ok d => Except.ok (JVal.jobj [("ok", JVal.jbool true), ("apply", d)])

/-- `GET /tasks`: one upstream POST to `/api/v2/tasks/details`, response
wrapped as `{"ok": true, "task": data}`. -/
def task_details (cfg : Config) (r : UpResult) : Except ProxyErr JVal :=
  match xgodo_result cfg r with
  | Except.error e => Except.error e
  | Except.ok d => Except.ok (JVal.jobj [("ok", JVal.jbool true), ("task", d)])

/-- The JSON body `GET /submit` returns on success: the raw upstream payload
under `submitted` plus the `stored` reference. -/
structure SubmitResp where
  ok : Bool
  submitted : JVal
  submission_id : Nat
  user_id : String
  job_id : String
  task_id : Option String
deriving Repr, Inhabited

/-- `GET /submit` (`submit_task` in `main.py`): POST to upstream, extract a
task id from the response (possibly `None`), insert a row either way, and
answer `{"ok": true, "submitted": data, "stored": {...}}`. `created_at`
stands for `_utc_now_iso()`. -/
def submit_task (cfg : Config) (r : UpResult) (db : DB)
    (user_id job_id job_proof created_at : String) :
    Except ProxyErr (SubmitResp × DB) :=
  match xgodo_result cfg r with
  | Except.error e => Except.error e
  | Except.ok data =>
    let task_id := extract_task_id data
    let ins := db_insert_submission db (pyStrip user_id) (pyStrip job_id)
      job_proof task_id data created_at
    Except.ok
      ({ ok := true, submitted := data, submission_id := ins.1,
         user_id := user_id, job_id := job_id, task_id := task_id }, ins.2)

/-- The JSON body `GET /user/submissions` returns. -/
structure UserSubmissionsResp where
  ok : Bool
  user_id : String
  count : Nat
  submissions : List Row
deriving Repr, Inhabited

/-- `GET /user/submissions` (`user_submissions` in `main.py`): a store-only
read, no token check and no upstream call. -/
def user_submissions (db : DB) (u : String) : UserSubmissionsResp :=
  let subs := db_list_submissions db (pyStrip u)
  { ok := true, user_id := u, count := subs.length, submissions := subs }

/-- One entry of the `missing` list in `GET /user/tasks`. -/
structure MissingEntry where
  submission_id : Nat
  job_id : String
  created_at : String
  reason : String
  upstream : JVal
deriving Repr, Inhabited

/-- The `missing` entry built for a submission row without a usable task id. -/
def missingOf (s : Row) : MissingEntry :=
  { submission_id := s.id, job_id := s.job_id, created_at := s.created_at,
    reason := "missing_task_id_in_upstream_response", upstream := s.upstream }

/-- Does the row carry a usable task id?  The code tests
`if tid and str(tid).strip():` — a non-`None`, truthy string whose strip is
non-empty. -/
def usableTid : Option String → Bool
  | none => false
  | some t => t ≠ "" && pyStrip t ≠ ""

/-- The task-id collection loop of `user_tasks_details`: walk the listing
(most recent first), keep each stripped task id once (`seen` set), and file
rows without a usable id under `missing`. -/
def collectTids : List Row → List String → List String × List MissingEntry
  | [], _ => ([], [])
  | s :: rest, seen =>
    match s.task_id with
    | some t =>
      if t ≠ "" && pyStrip t ≠ "" then
        if seen.contains (pyStrip t) then collectTids rest seen
        else
          let acc := collectTids rest (pyStrip t :: seen)
          (pyStrip t :: acc.1, acc.2)
      else
        let acc := collectTids rest seen
        (acc.1, missingOf s :: acc.2)
    | none =>
      let acc := collectTids rest seen
      (acc.1, missingOf s :: acc.2)

/-- The fetch loop of `user_tasks_details`: one sequential
`_xgodo_post("/api/v2/tasks/details", params={"task_id": tid})` per collected
id; the first raised `HTTPException` propagates and aborts the whole request.
`up` maps each task id to its upstream exchange. -/
def fetch_details (cfg : Config) (up : String → UpResult) :
    List String → Except ProxyErr (List (String × JVal))
  | [] => Except.ok []
  | tid :: rest =>
    match xgodo_result cfg (up tid) with
    | Except.error e => Except.error e
    | Except.ok d =>
      match fetch_details cfg up rest with
      | Except.error e => Except.error e
      | Except.ok ds => Except.ok ((tid, d) :: ds)

/-- The outbound requests the fetch loop actually issues: with an empty token
the first iteration raises before any request; otherwise requests go out in
order until (and including) the first failing exchange. -/
def fetch_calls (cfg : Config) (up : String → UpResult) :
    List String → List String
  | [] => []
  | tid :: rest =>
    if cfg.token = "" then []
    else
      match up tid with
      | UpResult.ok _ => tid :: fetch_calls cfg up rest
      | UpResult.noContent => tid :: fetch_calls cfg up rest
      | _ => [tid]

/-- The JSON body `GET /user/tasks` returns on success. -/
structure TasksResp where
  ok : Bool
  user_id : String
  task_count : Nat
  missing_task_id_count : Nat
  tasks : List (String × JVal)
  missing : List MissingEntry
deriving Repr, Inhabited

/-- `GET /user/tasks` (`user_tasks_details` in `main.py`): list the user's
rows newest first, collect distinct usable task ids and the `missing`
entries, fetch details per id, and assemble the response.  The handler never
writes to the store, so the table it leaves behind is the one it was given. -/
def user_tasks_details (cfg : Config) (up : String → UpResult) (db : DB)
    (u : String) : Except ProxyErr TasksResp :=
  let subs := db_list_submissions db (pyStrip u)
  let col := collectTids subs []
  match fetch_details cfg up col.1 with
  | Except.error e => Except.error e
  | Except.ok details =>
    Except.ok
      { ok := true, user_id := u, task_count := col.1.length,
        missing_task_id_count := col.2.length, tasks := details,
        missing := col.2 }

/-- The outbound requests one `GET /user/tasks` pass issues. -/
def user_tasks_calls (cfg : Config) (up : String → UpResult) (db : DB)
    (u : String) : List String :=
  fetch_calls cfg up (collectTids (db_list_submissions db (pyStrip u)) []).1

/-- The successful outcomes of one upstream exchange, as decoded by
`_xgodo_get`/`_xgodo_post`: the JSON body, or the 204 sentinel. -/
def upOk : UpResult → Option JVal
  | UpResult.ok d => some d
  | UpResult.noContent => some noContentBody
  | _ => none

/-!
Concrete scenario values used by the counterexamples and witnesses below.
-/

/-- The submit payload `{"task_id": "T1"}`. -/
def payT1 : JVal := JVal.jobj [("task_id", JVal.jstr "T1")]

/-- The submit payload `{"foo": "bar"}` (no extractable task id). -/
def payFoo : JVal := JVal.jobj [("foo", JVal.jstr "bar")]

/-- First insert of task "T1" for user "u1" into a fresh store. -/
def insT1a : Nat × DB :=
  db_insert_submission DB.empty "u1" "j1" "p1" (some "T1") payT1 "t0"

/-- Second insert with the same task id "T1". -/
def insT1b : Nat × DB :=
  db_insert_submission insT1a.2 "u1" "j1" "p1" (some "T1") payT1 "t1"

/-- A one-record store for user "u1", record carrying task id "T1". -/
def dbT1 : DB := insT1a.2

/-- The row `insT1a` stores. -/
def rowT1 : Row :=
  { id := 1
    user_id := "u1"
    job_id := "j1"
    job_proof := "p1"
    task_id := some "T1"
    upstream := payT1
    created_at := "t0" }

/-- `dbT1` plus one further "u1" row recorded without a task id (the
`{"foo": "bar"}` submit). -/
def dbMix : DB :=
  (db_insert_submission dbT1 "u1" "j9" "p9" none payFoo "t2").2

/-- A configuration with the bearer credential present. -/
def cfgTok : Config := { token := "tok" }

/-- A configuration with `XGODO_TOKEN` unset (empty after strip). -/
def cfgNoTok : Config := { token := "" }

/-- An upstream oracle reporting `{"status": "confirmed"}` — "confirmed" is
one of the spec's TERMINAL examples — for every task id. -/
def upConfirmed : String → UpResult :=
  fun _ => UpResult.ok (JVal.jobj [("status", JVal.jstr "confirmed")])

/-- An upstream oracle reporting `{"status": "declined"}` — the spec's HIDDEN
example — for every task id. -/
def upDeclined : String → UpResult :=
  fun _ => UpResult.ok (JVal.jobj [("status", JVal.jstr "declined")])

/-- The listing response for `dbT1` under `upConfirmed`. -/
def respT1 : TasksResp :=
  { ok := true
    user_id := "u1"
    task_count := 1
    missing_task_id_count := 0
    tasks := [("T1", JVal.jobj [("status", JVal.jstr "confirmed")])]
    missing := [] }

/-- The listing response for `dbT1` under `upDeclined`: the "declined" record
is still present in `tasks`. -/
def respT1d : TasksResp :=
  { ok := true
    user_id := "u1"
    task_count := 1
    missing_task_id_count := 0
    tasks := [("T1", JVal.jobj [("status", JVal.jstr "declined")])]
    missing := [] }

/-- A two-record store for "u1": task "A" (row id 1), then task "B" (row
id 2, most recent). -/
def dbAB : DB :=
  (db_insert_submission
    (db_insert_submission DB.empty "u1" "j1" "p1" (some "A") JVal.jnull
      "t0").2
    "u1" "j2" "p2" (some "B") JVal.jnull "t1").2

/-- An oracle where the lookup for "B" (queried first, most recent record)
is unreachable while the one for "A" succeeds with status "confirmed". -/
def upBfails : String → UpResult :=
  fun t =>
    if t = "B" then UpResult.unreachable "boom"
    else UpResult.ok (JVal.jobj [("status", JVal.jstr "confirmed")])

theorem pyStrip_empty : pyStrip "" = "" := rfl

theorem pyStrip_ne_empty {t : String} (h : pyStrip t ≠ "") : t ≠ "" := by
  intro hc
  subst hc
  exact h pyStrip_empty

theorem usable_cond_iff (t : String) :
    (t ≠ "" && pyStrip t ≠ "") = true ↔ pyStrip t ≠ "" := by
  constructor
  · intro h
    simp only [Bool.and_eq_true, decide_eq_true_eq] at h
    exact h.2
  · intro h
    simp [h, pyStrip_ne_empty h]

theorem xgodo_result_ok_of (cfg : Config) (r : UpResult) (h : ¬ cfg.token = "")
    (d : JVal) (hd : upOk r = some d) : xgodo_result cfg r = Except.ok d := by
  cases r <;> simp_all [upOk, xgodo_result]

theorem fetch_details_eq (cfg : Config) (up : String → UpResult)
    (h : ¬ cfg.token = "") :
    ∀ tids : List String, (∀ t ∈ tids, (upOk (up t)).isSome = true) →
    fetch_details cfg up tids =
      Except.ok (tids.map (fun t => (t, (upOk (up t)).getD JVal.jnull))) := by
  intro tids
  induction tids with
  | nil => intro _; rfl
  | cons tid rest ih =>
    intro hall
    have h1 : (upOk (up tid)).isSome = true := hall tid (by simp)
    obtain ⟨d, hd⟩ := Option.isSome_iff_exists.mp h1
    have hres : xgodo_result cfg (up tid) = Except.ok d :=
      xgodo_result_ok_of cfg _ h d hd
    have ih2 := ih (fun t ht => hall t (by simp [ht]))
    simp [fetch_details, hres, ih2, hd]

theorem fetch_calls_eq (cfg : Config) (up : String → UpResult)
    (h : ¬ cfg.token = "") :
    ∀ tids : List String, (∀ t ∈ tids, (upOk (up t)).isSome = true) →
    fetch_calls cfg up tids = tids := by
  intro tids
  induction tids with
  | nil => intro _; rfl
  | cons tid rest ih =>
    intro hall
    have h1 : (upOk (up tid)).isSome = true := hall tid (by simp)
    have ih2 := ih (fun t ht => hall t (by simp [ht]))
    cases hu : up tid <;> simp_all [upOk, fetch_calls]

theorem fetch_calls_empty_token (cfg : Config) (up : String → UpResult)
    (h : cfg.token = "") (tids : List String) : fetch_calls cfg up tids = [] := by
  cases tids <;> simp [fetch_calls, h]

theorem usableTid_some (t : String) :
    usableTid (some t) = (t ≠ "" && pyStrip t ≠ "") := rfl

theorem collectTids_snd : ∀ (l : List Row) (seen : List String),
    (collectTids l seen).2 =
      (l.filter (fun r => !usableTid r.task_id)).map missingOf := by
  intro l
  induction l with
  | nil => intro seen; rfl
  | cons s rest ih =>
    intro seen
    cases ht : s.task_id with
    | none =>
      have hf : usableTid none = false := rfl
      simp only [collectTids, ht, List.filter_cons, hf]
      simp [ih]
    | some t =>
      by_cases hb : pyStrip t = ""
      · have hcond : (t ≠ "" && pyStrip t ≠ "") = false := by simp [hb]
        have hu : usableTid (some t) = false := by
          rw [usableTid_some]; exact hcond
        simp only [collectTids, ht, List.filter_cons, hcond, hu]
        simp [ih]
      · have ha : ¬ t = "" := pyStrip_ne_empty hb
        have hcond : (t ≠ "" && pyStrip t ≠ "") = true := by simp [ha, hb]
        have hu : usableTid (some t) = true := by
          rw [usableTid_some]; exact hcond
        by_cases hc : seen.contains (pyStrip t) = true
        · simp only [collectTids, ht, List.filter_cons, hcond, hc, hu]
          simp [ih]
        · have hc2 : seen.contains (pyStrip t) = false := by simpa using hc
          simp only [collectTids, ht, List.filter_cons, hcond, hc2, hu]
          simp [ih]

theorem collectTids_nodup : ∀ (l : List Row) (seen : List String),
    (collectTids l seen).1.Nodup ∧ ∀ t ∈ (collectTids l seen).1, t ∉ seen := by
  intro l
  induction l with
  | nil => intro seen; simp [collectTids]
  | cons s rest ih =>
    intro seen
    cases ht : s.task_id with
    | none => simpa [collectTids, ht] using ih seen
    | some t =>
      by_cases hb : pyStrip t = ""
      · have hcond : (t ≠ "" && pyStrip t ≠ "") = false := by simp [hb]
        have hcn : ¬ ((t ≠ "" && pyStrip t ≠ "") = true) := by
          simp [hcond]
          intro _
          exact hb
        simp only [collectTids, ht]
        rw [if_neg hcn]
        exact ih seen
      · have ha : ¬ t = "" := pyStrip_ne_empty hb
        have hcond : (t ≠ "" && pyStrip t ≠ "") = true := by simp [ha, hb]
        by_cases hc : seen.contains (pyStrip t) = true
        · simp only [collectTids, ht]
          rw [if_pos hcond, if_pos hc]
          exact ih seen
        · have hseen : pyStrip t ∉ seen := by
            intro hm
            exact hc (List.elem_iff.mpr hm)
          have ih2 := ih (pyStrip t :: seen)
          have hnotin : pyStrip t ∉ (collectTids rest (pyStrip t :: seen)).1 := by
            intro hmem
            exact (ih2.2 _ hmem) (by simp)
          simp only [collectTids, ht]
          rw [if_pos hcond, if_neg hc]
          refine ⟨List.nodup_cons.mpr ⟨hnotin, ih2.1⟩, ?_⟩
          intro u hm
          rcases List.mem_cons.mp hm with hm2 | hm2
          · subst hm2
            exact hseen
          · intro hu
            exact (ih2.2 u hm2) (by simp [hu])

theorem collectTids_mem : ∀ (l : List Row) (seen : List String) (x : String),
    x ∈ (collectTids l seen).1 ↔
      (x ∉ seen ∧ ∃ r ∈ l, ∃ s, r.task_id = some s ∧
        pyStrip s ≠ "" ∧ pyStrip s = x) := by
  intro l
  induction l with
  | nil => intro seen x; simp [collectTids]
  | cons s rest ih =>
    intro seen x
    cases ht : s.task_id with
    | none =>
      simp only [collectTids, ht]
      rw [ih seen x]
      constructor
      · rintro ⟨hx, r, hr, w, hw⟩
        exact ⟨hx, r, List.mem_cons_of_mem s hr, w, hw⟩
      · rintro ⟨hx, r, hr, w, hw⟩
        rcases List.mem_cons.mp hr with rfl | hr2
        · rw [ht] at hw
          exact absurd hw.1 (by simp)
        · exact ⟨hx, r, hr2, w, hw⟩
    | some t =>
      by_cases hb : pyStrip t = ""
      · have hcn : ¬ ((t ≠ "" && pyStrip t ≠ "") = true) := by
          simp
          intro _
          exact hb
        simp only [collectTids, ht]
        rw [if_neg hcn, ih seen x]
        constructor
        · rintro ⟨hx, r, hr, w, hw⟩
          exact ⟨hx, r, List.mem_cons_of_mem s hr, w, hw⟩
        · rintro ⟨hx, r, hr, w, hw⟩
          rcases List.mem_cons.mp hr with rfl | hr2
          · rw [ht] at hw
            obtain ⟨hw1, hw2, _⟩ := hw
            cases hw1
            exact absurd hb hw2
          · exact ⟨hx, r, hr2, w, hw⟩
      · have ha : ¬ t = "" := pyStrip_ne_empty hb
        have hcond : (t ≠ "" && pyStrip t ≠ "") = true := by simp [ha, hb]
        by_cases hc : seen.contains (pyStrip t) = true
        · have hcm : pyStrip t ∈ seen := List.elem_iff.mp hc
          simp only [collectTids, ht]
          rw [if_pos hcond, if_pos hc, ih seen x]
          constructor
          · rintro ⟨hx, r, hr, w, hw⟩
            exact ⟨hx, r, List.mem_cons_of_mem s hr, w, hw⟩
          · rintro ⟨hx, r, hr, w, hw⟩
            rcases List.mem_cons.mp hr with rfl | hr2
            · rw [ht] at hw
              obtain ⟨hw1, _, hw3⟩ := hw
              cases hw1
              rw [hw3] at hcm
              exact absurd hcm hx
            · exact ⟨hx, r, hr2, w, hw⟩
        · have hseen : pyStrip t ∉ seen := by
            intro hm
            exact hc (List.elem_iff.mpr hm)
          simp only [collectTids, ht]
          rw [if_pos hcond, if_neg hc]
          rw [List.mem_cons]
          constructor
          · rintro (rfl | hx2)
            · exact ⟨hseen, s, List.mem_cons_self s rest, t, ht, hb, rfl⟩
            · obtain ⟨hx, r, hr, w, hw⟩ := (ih (pyStrip t :: seen) x).mp hx2
              refine ⟨fun hm => hx (List.mem_cons_of_mem _ hm),
                r, List.mem_cons_of_mem s hr, w, hw⟩
          · rintro ⟨hx, r, hr, w, hw⟩
            rcases List.mem_cons.mp hr with rfl | hr2
            · rw [ht] at hw
              obtain ⟨hw1, _, hw3⟩ := hw
              cases hw1
              exact Or.inl hw3.symm
            · by_cases hxe : x = pyStrip t
              · exact Or.inl hxe
              · refine Or.inr ((ih (pyStrip t :: seen) x).mpr ⟨?_, r, hr2, w, hw⟩)
                intro hm
                rcases List.mem_cons.mp hm with hm2 | hm2
                · exact hxe hm2
                · exact hx hm2

theorem db_list_perm (db : DB) (u : String) :
    (db_list_submissions db u).Perm (db.rows.filter (fun r => r.user_id == u)) :=
  List.mergeSort_perm _ _

theorem db_list_mem (db : DB) (u : String) (r : Row) :
    r ∈ db_list_submissions db u ↔ r ∈ db.rows ∧ r.user_id = u := by
  rw [(db_list_perm db u).mem_iff, List.mem_filter]
  simp

theorem db_list_sorted (db : DB) (u : String) (h : db.WF) :
    (db_list_submissions db u).Pairwise (fun a b => b.id < a.id) := by
  have hle : (db_list_submissions db u).Pairwise
      (fun a b : Row => (decide (b.id ≤ a.id)) = true) := by
    refine List.sorted_mergeSort ?_ ?_ (db.rows.filter (fun r => r.user_id == u))
    · intro a b c hab hbc
      have h1 := of_decide_eq_true hab
      have h2 := of_decide_eq_true hbc
      exact decide_eq_true (le_trans h2 h1)
    · intro a b
      rcases le_total b.id a.id with hh | hh
      · simp [hh]
      · simp [hh]
  have hne : (db_list_submissions db u).Pairwise
      (fun a b : Row => a.id ≠ b.id) := by
    have hf : (db.rows.filter (fun r => r.user_id == u)).Pairwise
        (fun a b : Row => a.id ≠ b.id) :=
      (h.1.filter _).imp (fun hab => Nat.ne_of_lt hab)
    exact ((db_list_perm db u).pairwise_iff
      (fun hxy => hxy.symm) |>.mpr hf)
  exact (hle.and hne).imp
    (fun hab => lt_of_le_of_ne (of_decide_eq_true hab.1)
      (fun he => hab.2 he.symm))

theorem db_insert_fresh (db : DB) (h : db.WF)
    (user_id job_id job_proof : String) (task_id : Option String)
    (upstream : JVal) (created_at : String) :
    (db_insert_submission db user_id job_id job_proof task_id upstream
      created_at).2.WF ∧
    (db_insert_submission db user_id job_id job_proof task_id upstream
      created_at).1 = db.nextId ∧
    ∀ r ∈ db.rows, r.id <
      (db_insert_submission db user_id job_id job_proof task_id upstream
        created_at).1 := by
  simp only [db_insert_submission]
  refine ⟨⟨?_, ?_⟩, trivial, fun r hr => h.2 r hr⟩
  · rw [List.pairwise_append]
    exact ⟨h.1, by simp, by intro a ha b hb; simp at hb; subst hb; exact h.2 a ha⟩
  · intro r hr
    rcases List.mem_append.mp hr with hr2 | hr2
    · exact Nat.lt_succ_of_lt (h.2 r hr2)
    · simp at hr2
      subst hr2
      exact Nat.lt_succ_self _

/-- **C4 — confirmed.** Extraction tolerance: `_extract_task_id` yields "T1"
for `{"task_id": "T1"}`, `{"data": {"id": "T1"}}` and
`{"result": {"taskId": "T1"}}`, and no identifier for `{"foo": "bar"}`;
it scans the known top-level keys first (a top-level `task_id` beats a nested
container and an earlier-listed key beats a later one), accepts the first
string- or integer-valued match, coerces integers to strings and trims
whitespace. -/
theorem C4_extraction_tolerance :
    extract_task_id (JVal.jobj [("task_id", JVal.jstr "T1")]) = some "T1" ∧
    extract_task_id (JVal.jobj [("data", JVal.jobj [("id", JVal.jstr "T1")])])
      = some "T1" ∧
    extract_task_id
      (JVal.jobj [("result", JVal.jobj [("taskId", JVal.jstr "T1")])])
      = some "T1" ∧
    extract_task_id (JVal.jobj [("foo", JVal.jstr "bar")]) = none ∧
    extract_task_id (JVal.jobj [("data", JVal.jobj [("id", JVal.jstr "T2")]),
      ("task_id", JVal.jstr "T1")]) = some "T1" ∧
    extract_task_id (JVal.jobj [("taskId", JVal.jstr "T2"),
      ("task_id", JVal.jstr "T1")]) = some "T1" ∧
    extract_task_id (JVal.jobj [("taskId", JVal.jint 42)]) = some "42" ∧
    extract_task_id (JVal.jobj [("task_id", JVal.jstr " T1 ")]) = some "T1"
    := by decide

/-- **C9 — confirmed.** For a payload that is itself a bare string or
integer, `_extract_task_id` returns `str(payload)` unchanged — no trim and
no non-emptiness check — so the empty-string payload yields the empty string
as an identifier rather than no identifier. -/
theorem C9_bare_payload_extraction :
    (∀ s : String, extract_task_id (JVal.jstr s) = some s) ∧
    (∀ n : Int, extract_task_id (JVal.jint n) = some (toString n)) ∧
    extract_task_id (JVal.jstr "") = some "" ∧
    extract_task_id (JVal.jstr " x ") = some " x " :=
  ⟨fun _ => rfl, fun _ => rfl, rfl, rfl⟩

/-- **C1 — counterexample.** Insertion is not idempotent on the task
identifier: a second `_db_insert_submission_sync` call with the same
`job_task_id` "T1" leaves two rows carrying "T1" and returns a fresh rowid
(2), not the existing record's reference (1). -/
theorem C1_idempotent_insert_counterexample :
    ((insT1b.2.rows.filter (fun r => r.task_id = some "T1")).length = 2) ∧
    insT1a.1 = 1 ∧ insT1b.1 = 2 := by decide

/-- **C1 — amended.** For all (user_id, job_id, job_task_id), calling the
store's insert twice with the same job_task_id stores two records carrying
that task id — the table has no uniqueness constraint on `task_id` — and the
two calls return distinct, strictly increasing rowids; neither call raises
an error (the insert is total). -/
theorem C1_insert_always_appends (db : DB) (u1 j1 p1 u2 j2 p2 : String)
    (t : Option String) (pay1 pay2 : JVal) (c1 c2 : String) :
    ((db_insert_submission (db_insert_submission db u1 j1 p1 t pay1 c1).2
        u2 j2 p2 t pay2 c2).2.rows.filter
          (fun r => r.task_id = t)).length =
      (db.rows.filter (fun r => r.task_id = t)).length + 2 ∧
    (db_insert_submission db u1 j1 p1 t pay1 c1).1 = db.nextId ∧
    (db_insert_submission (db_insert_submission db u1 j1 p1 t pay1 c1).2
        u2 j2 p2 t pay2 c2).1 = db.nextId + 1 ∧
    (db_insert_submission db u1 j1 p1 t pay1 c1).1 ≠
      (db_insert_submission (db_insert_submission db u1 j1 p1 t pay1 c1).2
        u2 j2 p2 t pay2 c2).1 := by
  refine ⟨?_, rfl, rfl, by simp [db_insert_submission]⟩
  simp [db_insert_submission, List.filter_append]

/-- **C2 — counterexample.** No terminal freeze exists: `dbT1` holds one
record with task id "T1"; a pass in which upstream reports the TERMINAL
status "confirmed" for it writes nothing back (the handler has no store
write), and the next pass over the same store still issues an upstream
details lookup for "T1". -/
theorem C2_terminal_freeze_counterexample :
    user_tasks_details cfgTok upConfirmed dbT1 "u1" = Except.ok respT1 ∧
    user_tasks_calls cfgTok upConfirmed dbT1 "u1" = ["T1"] := by
  have hT : pyStrip "T1" = "T1" := by decide
  have hs : pyStrip "u1" = "u1" := by decide
  have hl : db_list_submissions dbT1 (pyStrip "u1") = [rowT1] := by
    rw [hs]
    simp [db_list_submissions, dbT1, insT1a, db_insert_submission, DB.empty,
      List.mergeSort, rowT1]
  have hcol : collectTids [rowT1] [] = (["T1"], []) := by
    simp [collectTids, rowT1, hT]
  have hf : fetch_details cfgTok upConfirmed ["T1"] =
      Except.ok [("T1", JVal.jobj [("status", JVal.jstr "confirmed")])] := by
    simp [fetch_details, xgodo_result, cfgTok, upConfirmed]
  constructor
  · simp only [user_tasks_details, hl, hcol, hf]
    rfl
  · simp only [user_tasks_calls, hl, hcol]
    simp [fetch_calls, cfgTok, upConfirmed]

/-- **C2 — amended.** There is no TERMINAL set in the code: whatever status
upstream reported before, a listing pass issues one upstream details lookup
for every distinct usable task identifier of the user's records, every time
(the handler also performs no store write, so no field of any record ever
changes). -/
theorem C2_every_pass_polls (cfg : Config) (up : String → UpResult)
    (db : DB) (u : String) (htok : ¬ cfg.token = "")
    (hok : ∀ t, (upOk (up t)).isSome = true) :
    user_tasks_calls cfg up db u =
      (collectTids (db_list_submissions db (pyStrip u)) []).1 :=
  fetch_calls_eq cfg up htok _ (fun t _ => hok t)

/-- Witness for `C2_every_pass_polls` at the concrete `dbT1` scenario. -/
theorem C2_every_pass_polls_witness :
    user_tasks_calls cfgTok upConfirmed dbT1 "u1" = ["T1"] := by
  have h := C2_every_pass_polls cfgTok upConfirmed dbT1 "u1"
    (by decide) (fun t => rfl)
  rw [h]
  have hT : pyStrip "T1" = "T1" := by decide
  have hs : pyStrip "u1" = "u1" := by decide
  have hl : db_list_submissions dbT1 (pyStrip "u1") = [rowT1] := by
    rw [hs]
    simp [db_list_submissions, dbT1, insT1a, db_insert_submission, DB.empty,
      List.mergeSort, rowT1]
  rw [hl]
  simp [collectTids, rowT1, hT]

/-- **C3 — counterexample.** No hidden suppression exists: with upstream
reporting the HIDDEN status "declined" for record "T1", the listing output
still contains "T1" (nothing is dropped by status), while the record sits
unchanged in the store. -/
theorem C3_hidden_suppression_counterexample :
    user_tasks_details cfgTok upDeclined dbT1 "u1" = Except.ok respT1d ∧
    respT1d.tasks = [("T1", JVal.jobj [("status", JVal.jstr "declined")])] ∧
    rowT1 ∈ dbT1.rows := by
  have hT : pyStrip "T1" = "T1" := by decide
  have hs : pyStrip "u1" = "u1" := by decide
  have hl : db_list_submissions dbT1 (pyStrip "u1") = [rowT1] := by
    rw [hs]
    simp [db_list_submissions, dbT1, insT1a, db_insert_submission, DB.empty,
      List.mergeSort, rowT1]
  have hcol : collectTids [rowT1] [] = (["T1"], []) := by
    simp [collectTids, rowT1, hT]
  have hf : fetch_details cfgTok upDeclined ["T1"] =
      Except.ok [("T1", JVal.jobj [("status", JVal.jstr "declined")])] := by
    simp [fetch_details, xgodo_result, cfgTok, upDeclined]
  refine ⟨?_, rfl, ?_⟩
  · simp only [user_tasks_details, hl, hcol, hf]
    rfl
  · simp [dbT1, insT1a, db_insert_submission, DB.empty, rowT1]

/-- **C3 — amended.** The listing excludes no record on the basis of status:
under a present credential and successful lookups, every distinct usable
task identifier of the user's records appears in the `tasks` output with
whatever detail upstream reports (hidden or not), and every stored row of
the user remains retrievable from the store via `user_submissions`; the
hiding policy does not exist, and nothing is deleted or mutated. -/
theorem C3_no_hidden_filtering (cfg : Config) (up : String → UpResult)
    (db : DB) (u : String) (htok : ¬ cfg.token = "")
    (hok : ∀ t, (upOk (up t)).isSome = true) :
    (∃ resp, user_tasks_details cfg up db u = Except.ok resp ∧
      resp.tasks =
        (collectTids (db_list_submissions db (pyStrip u)) []).1.map
          (fun t => (t, (upOk (up t)).getD JVal.jnull)) ∧
      ∀ t ∈ (collectTids (db_list_submissions db (pyStrip u)) []).1,
        (t, (upOk (up t)).getD JVal.jnull) ∈ resp.tasks) ∧
    ∀ r ∈ db.rows, r.user_id = pyStrip u →
      r ∈ (user_submissions db u).submissions := by
  have hf := fetch_details_eq cfg up htok
    (collectTids (db_list_submissions db (pyStrip u)) []).1
    (fun t _ => hok t)
  constructor
  · simp only [user_tasks_details, hf]
    refine ⟨_, rfl, rfl, ?_⟩
    intro t ht
    exact List.mem_map_of_mem _ ht
  · intro r hr hu
    exact (db_list_mem db (pyStrip u) r).mpr ⟨hr, hu⟩

/-- Witness for `C3_no_hidden_filtering`: the "declined" record "T1" is in
the output. -/
theorem C3_no_hidden_filtering_witness :
    ∃ resp, user_tasks_details cfgTok upDeclined dbT1 "u1" = Except.ok resp ∧
      ("T1", JVal.jobj [("status", JVal.jstr "declined")]) ∈ resp.tasks := by
  obtain ⟨⟨resp, he, hts, hmem⟩, _⟩ :=
    C3_no_hidden_filtering cfgTok upDeclined dbT1 "u1" (by decide)
      (fun t => rfl)
  refine ⟨resp, he, ?_⟩
  have hT : pyStrip "T1" = "T1" := by decide
  have hs : pyStrip "u1" = "u1" := by decide
  have hl : db_list_submissions dbT1 (pyStrip "u1") = [rowT1] := by
    rw [hs]
    simp [db_list_submissions, dbT1, insT1a, db_insert_submission, DB.empty,
      List.mergeSort, rowT1]
  have hcol : collectTids [rowT1] [] = (["T1"], []) := by
    simp [collectTids, rowT1, hT]
  have := hmem "T1" (by rw [hl, hcol]; simp)
  simpa [upDeclined, upOk] using this

/-- **C5 — counterexample.** When the upstream submit response
`{"foo": "bar"}` yields no extractable task identifier, `submit_task`
nevertheless records a row with a null `task_id` and answers a normal
success body (`ok = true`, the raw payload under `submitted`, `task_id`
null) — no error condition of any kind. -/
theorem C5_null_key_counterexample :
    submit_task cfgTok (UpResult.ok payFoo) DB.empty "u1" "j1" "p1" "t0" =
      Except.ok (⟨true, payFoo, 1, "u1", "j1", none⟩,
        ⟨2, [⟨1, "u1", "j1", "p1", none, payFoo, "t0"⟩]⟩) := by
  have hx : extract_task_id payFoo = none := by decide
  have hu : pyStrip "u1" = "u1" := by decide
  have hj : pyStrip "j1" = "j1" := by decide
  simp only [submit_task, xgodo_result, cfgTok, hx, hu, hj]
  rfl

/-- **C5 — amended.** For every submit whose upstream response yields no
extractable task identifier (credential present), a record IS created with a
null task-identifier key, and the caller receives the ordinary success
response carrying the raw upstream payload and a null stored `task_id` — no
error condition distinct from a normal submission failure exists. -/
theorem C5_null_key_recorded (cfg : Config) (data : JVal) (db : DB)
    (u j p c : String) (htok : ¬ cfg.token = "")
    (hex : extract_task_id data = none) :
    submit_task cfg (UpResult.ok data) db u j p c =
      Except.ok (⟨true, data, db.nextId, u, j, none⟩,
        ⟨db.nextId + 1,
          db.rows ++ [⟨db.nextId, pyStrip u, pyStrip j, p, none, data, c⟩]⟩)
    := by
  simp only [submit_task, xgodo_result, if_neg htok, hex,
    db_insert_submission]

/-- Witness for `C5_null_key_recorded` at the `{"foo": "bar"}` payload. -/
theorem C5_null_key_recorded_witness :
    submit_task cfgTok (UpResult.ok payFoo) dbT1 "u2" "j2" "p2" "t9" =
      Except.ok (⟨true, payFoo, 2, "u2", "j2", none⟩,
        ⟨3, dbT1.rows ++ [⟨2, pyStrip "u2", pyStrip "j2", "p2", none, payFoo,
          "t9"⟩]⟩) :=
  C5_null_key_recorded cfgTok payFoo dbT1 "u2" "j2" "p2" "t9"
    (by decide) (by decide)

/-- **C6 — counterexample.** Partial-failure isolation does not hold: in
`dbAB` the most recent record "B" is queried first and its lookup is
unreachable, while the lookup for "A" would succeed with status "confirmed";
the whole listing request nevertheless fails with the single 502 error and
the response carries neither "A" nor any per-record failure notice. -/
theorem C6_partial_failure_counterexample :
    xgodo_result cfgTok (upBfails "A") =
      Except.ok (JVal.jobj [("status", JVal.jstr "confirmed")]) ∧
    user_tasks_details cfgTok upBfails dbAB "u1" =
      Except.error (ProxyErr.unreachable "Upstream request failed: boom")
    := by
  have hs : pyStrip "u1" = "u1" := by decide
  have hA : pyStrip "A" = "A" := by decide
  have hB : pyStrip "B" = "B" := by decide
  have hl : db_list_submissions dbAB (pyStrip "u1") =
      [⟨2, "u1", "j2", "p2", some "B", JVal.jnull, "t1"⟩,
       ⟨1, "u1", "j1", "p1", some "A", JVal.jnull, "t0"⟩] := by
    rw [hs]
    simp [db_list_submissions, dbAB, db_insert_submission, DB.empty,
      List.mergeSort]
  have hcol : collectTids
      [(⟨2, "u1", "j2", "p2", some "B", JVal.jnull, "t1"⟩ : Row),
       ⟨1, "u1", "j1", "p1", some "A", JVal.jnull, "t0"⟩] [] =
      (["B", "A"], []) := by
    simp [collectTids, hA, hB]
  constructor
  · simp [xgodo_result, cfgTok, upBfails]
  · simp only [user_tasks_details, hl, hcol]
    simp [fetch_details, xgodo_result, cfgTok, upBfails]

/-- **C6 — amended.** During one listing pass, if the upstream lookup for
the first collected task identifier fails as unreachable, the whole request
fails with that single 502 error: later records' fresh statuses are
discarded and no per-record failure notice exists. -/
theorem C6_first_failure_aborts (cfg : Config) (up : String → UpResult)
    (db : DB) (u : String) (htok : ¬ cfg.token = "") (t m : String)
    (rest : List String)
    (hcol : (collectTids (db_list_submissions db (pyStrip u)) []).1 =
      t :: rest)
    (hfail : up t = UpResult.unreachable m) :
    user_tasks_details cfg up db u =
      Except.error (ProxyErr.unreachable ("Upstream request failed: " ++ m))
    := by
  simp only [user_tasks_details, hcol, fetch_details, hfail, xgodo_result,
    if_neg htok]

/-- Witness for `C6_first_failure_aborts` at the `dbAB` scenario. -/
theorem C6_first_failure_aborts_witness :
    user_tasks_details cfgTok upBfails dbAB "u1" =
      Except.error
        (ProxyErr.unreachable ("Upstream request failed: " ++ "boom")) := by
  have hs : pyStrip "u1" = "u1" := by decide
  have hA : pyStrip "A" = "A" := by decide
  have hB : pyStrip "B" = "B" := by decide
  have hl : db_list_submissions dbAB (pyStrip "u1") =
      [⟨2, "u1", "j2", "p2", some "B", JVal.jnull, "t1"⟩,
       ⟨1, "u1", "j1", "p1", some "A", JVal.jnull, "t0"⟩] := by
    rw [hs]
    simp [db_list_submissions, dbAB, db_insert_submission, DB.empty,
      List.mergeSort]
  exact C6_first_failure_aborts cfgTok upBfails dbAB "u1" (by decide)
    "B" "boom" ["A"]
    (by rw [hl]; simp [collectTids, hA, hB]) rfl

/-- **C7 — confirmed.** With the bearer credential absent (empty token),
every upstream-calling operation — apply, submit, details, and the per-user
details listing — fails fast with the fixed configuration `HTTPException`
(distinct by constructor from the transport-failure and forwarded-upstream
errors), and no outbound request is issued; the store-only
`user_submissions` listing is unaffected and still answers normally. -/
theorem C7_missing_token_fails_fast (cfg : Config) (h : cfg.token = "")
    (r : UpResult) (db : DB) (up : String → UpResult)
    (user_id job_id job_proof created_at u tag : String) :
    apply_task cfg r = Except.error (ProxyErr.config tokenMissingDetail) ∧
    submit_task cfg r db user_id job_id job_proof created_at =
      Except.error (ProxyErr.config tokenMissingDetail) ∧
    task_details cfg r = Except.error (ProxyErr.config tokenMissingDetail) ∧
    xgodo_calls cfg tag = [] ∧
    user_tasks_calls cfg up db u = [] ∧
    (∀ m, ProxyErr.config tokenMissingDetail ≠ ProxyErr.unreachable m) ∧
    (∀ c b, ProxyErr.config tokenMissingDetail ≠ ProxyErr.upstream c b) ∧
    (user_submissions db u).ok = true ∧
    (user_submissions db u).count =
      (user_submissions db u).submissions.length := by
  have hx : xgodo_result cfg r =
      Except.error (ProxyErr.config tokenMissingDetail) := by
    simp [xgodo_result, h]
  refine ⟨?_, ?_, ?_, ?_, ?_, ?_, ?_, rfl, rfl⟩
  · simp [apply_task, hx]
  · simp [submit_task, hx]
  · simp [task_details, hx]
  · simp [xgodo_calls, h]
  · exact fetch_calls_empty_token cfg up h _
  · intro m hm
    cases hm
  · intro c b hm
    cases hm

/-- Witness for `C7_missing_token_fails_fast` at the empty-token config. -/
theorem C7_missing_token_fails_fast_witness :
    apply_task cfgNoTok (UpResult.ok JVal.jnull) =
      Except.error (ProxyErr.config tokenMissingDetail) ∧
    user_tasks_calls cfgNoTok upConfirmed dbT1 "u1" = [] :=
  ⟨(C7_missing_token_fails_fast cfgNoTok rfl (UpResult.ok JVal.jnull) dbT1
      upConfirmed "u" "j" "p" "c" "u1" "tag").1,
   (C7_missing_token_fails_fast cfgNoTok rfl (UpResult.ok JVal.jnull) dbT1
      upConfirmed "u" "j" "p" "c" "u1" "tag").2.2.2.2.1⟩

/-- **C8 — confirmed.** On a well-formed store, the per-user listing is in
strictly descending record-id order — most recently submitted first, since
rowids are locally assigned, strictly increasing, and unique — it contains
exactly the user's stored rows, and the reported `count` equals the number
of records returned; every insert hands out the next rowid, larger than all
existing ones, preserving well-formedness. -/
theorem C8_listing_order_and_count (db : DB) (u : String) (h : db.WF)
    (user_id job_id job_proof : String) (task_id : Option String)
    (upstream : JVal) (created_at : String) :
    (user_submissions db u).count =
      (user_submissions db u).submissions.length ∧
    (user_submissions db u).submissions.Pairwise (fun a b => b.id < a.id) ∧
    (∀ r, r ∈ (user_submissions db u).submissions ↔
      r ∈ db.rows ∧ r.user_id = pyStrip u) ∧
    (db_insert_submission db user_id job_id job_proof task_id upstream
      created_at).2.WF ∧
    (db_insert_submission db user_id job_id job_proof task_id upstream
      created_at).1 = db.nextId ∧
    (∀ r ∈ db.rows, r.id <
      (db_insert_submission db user_id job_id job_proof task_id upstream
        created_at).1) := by
  obtain ⟨hwf, hid, hlt⟩ := db_insert_fresh db h user_id job_id job_proof
    task_id upstream created_at
  exact ⟨rfl, db_list_sorted db (pyStrip u) h,
    fun r => db_list_mem db (pyStrip u) r, hwf, hid, hlt⟩

/-- Witness for `C8_listing_order_and_count` at the two-record store
`dbAB`. -/
theorem C8_listing_order_and_count_witness :
    (user_submissions dbAB "u1").count =
      (user_submissions dbAB "u1").submissions.length ∧
    (user_submissions dbAB "u1").submissions.Pairwise
      (fun a b => b.id < a.id) :=
  ⟨(C8_listing_order_and_count dbAB "u1" ⟨by decide, by decide⟩ "u" "j" "p"
      none JVal.jnull "c").1,
   (C8_listing_order_and_count dbAB "u1" ⟨by decide, by decide⟩ "u" "j" "p"
      none JVal.jnull "c").2.1⟩

/-- **C10 — confirmed.** In one `GET /user/tasks` pass (credential present,
all lookups succeeding): the collected task identifiers are exactly the
distinct non-blank stripped task ids of the user's stored rows, with no
duplicate; each triggers exactly one upstream details lookup and appears
exactly once in `tasks`; `task_count` is the number of distinct identifiers;
and every row with a missing or blank task id lands in `missing`, carrying
its stored upstream payload. -/
theorem C10_dedup_one_lookup (cfg : Config) (up : String → UpResult)
    (db : DB) (u : String) (htok : ¬ cfg.token = "")
    (hok : ∀ t, (upOk (up t)).isSome = true) :
    (collectTids (db_list_submissions db (pyStrip u)) []).1.Nodup ∧
    (∀ x, x ∈ (collectTids (db_list_submissions db (pyStrip u)) []).1 ↔
      ∃ r ∈ db_list_submissions db (pyStrip u), ∃ s, r.task_id = some s ∧
        pyStrip s ≠ "" ∧ pyStrip s = x) ∧
    user_tasks_calls cfg up db u =
      (collectTids (db_list_submissions db (pyStrip u)) []).1 ∧
    ∃ resp, user_tasks_details cfg up db u = Except.ok resp ∧
      resp.tasks.map Prod.fst =
        (collectTids (db_list_submissions db (pyStrip u)) []).1 ∧
      resp.task_count =
        (collectTids (db_list_submissions db (pyStrip u)) []).1.length ∧
      resp.missing_task_id_count = resp.missing.length ∧
      resp.missing =
        ((db_list_submissions db (pyStrip u)).filter
          (fun r => !usableTid r.task_id)).map missingOf ∧
      ∀ e ∈ resp.missing, ∃ r ∈ db_list_submissions db (pyStrip u),
        usableTid r.task_id = false ∧ e = missingOf r ∧
        e.upstream = r.upstream := by
  refine ⟨(collectTids_nodup _ []).1, ?_, ?_, ?_⟩
  · intro x
    rw [collectTids_mem]
    simp
  · exact fetch_calls_eq cfg up htok _ (fun t _ => hok t)
  · have hf := fetch_details_eq cfg up htok
      (collectTids (db_list_submissions db (pyStrip u)) []).1
      (fun t _ => hok t)
    simp only [user_tasks_details, hf]
    refine ⟨_, rfl, by simp [Function.comp_def], rfl, rfl,
      collectTids_snd _ _, ?_⟩
    intro e he
    rw [collectTids_snd] at he
    obtain ⟨r, hr, rfl⟩ := List.mem_map.mp he
    obtain ⟨hrs, hcond⟩ := List.mem_filter.mp hr
    refine ⟨r, hrs, ?_, rfl, rfl⟩
    cases hu : usableTid r.task_id
    · rfl
    · rw [hu] at hcond
      cases hcond

/-- Witness for `C10_dedup_one_lookup` at the `dbMix` store (one usable task
id "T1", one row without a task id). -/
theorem C10_dedup_one_lookup_witness :
    (collectTids (db_list_submissions dbMix (pyStrip "u1")) []).1.Nodup ∧
    user_tasks_calls cfgTok upConfirmed dbMix "u1" =
      (collectTids (db_list_submissions dbMix (pyStrip "u1")) []).1 :=
  ⟨(C10_dedup_one_lookup cfgTok upConfirmed dbMix "u1" (by decide)
      (fun t => rfl)).1,
   (C10_dedup_one_lookup cfgTok upConfirmed dbMix "u1" (by decide)
      (fun t => rfl)).2.2.1⟩
